import Mathlib

/-!
Shallow embedding of the document-to-chart orchestration pipeline from
`multimodal-generation/workshop-sample/NovaCanvas/01-text-to-image.ipynb`.

Python strings are modelled as `List Char`; Python `str.find` returns an
`Option Nat` (`none` models the sentinel `-1`); raised exceptions are
modelled with `Except`; the remote model endpoint is an oracle parameter.
-/

namespace NovaPipeline

abbrev Str := List Char

/-- Python `str.strip()`: drop leading and trailing whitespace. -/
def pyStrip (s : Str) : Str :=
  ((s.dropWhile Char.isWhitespace).reverse.dropWhile Char.isWhitespace).reverse

/-- Python `s.find(sub)`: index of the first occurrence of `sub` in `s`,
`none` for the sentinel `-1` (no occurrence). -/
def pyFind (s sub : Str) : Option Nat :=
  match s with
  | [] => if sub.isEmpty then some 0 else none
  | c :: rest =>
      if sub.isPrefixOf (c :: rest) then some 0
      else (pyFind rest sub).map (· + 1)

/-- Substring occurrence test: `sub` occurs contiguously inside `s`. -/
def hasSub (s sub : Str) : Bool :=
  match s with
  | [] => sub.isEmpty
  | c :: rest => sub.isPrefixOf (c :: rest) || hasSub rest sub

/-- The start delimiter searched for by `extract_code`. -/
def startTag : Str := "<python>".toList

/-- The end delimiter searched for by `extract_code`. -/
def endTag : Str := "</python>".toList

/-- The start tag the synthesis request instructs the model to use
(`Enclose the code within <python_code> tags.`). -/
def pcStartTag : Str := "<python_code>".toList

/-- The end tag matching the instructed `<python_code>` format. -/
def pcEndTag : Str := "</python_code>".toList

/-- Embedding of the notebook's splitter:
```
def extract_code(response):
    start = response.find("<python>")
    end = response.find("</python>")
    if start != -1 and end != -1:
        return response[start+6:end].strip(), response[:start].strip()
    return None, response.strip()
```
The pair is (optional code fragment, narrative). -/
def extract_code (response : Str) : Option Str × Str :=
  match pyFind response startTag, pyFind response endTag with
  | some st, some en =>
      (some (pyStrip ((response.drop (st + 6)).take (en - (st + 6)))),
       pyStrip (response.take st))
  | _, _ => (none, pyStrip response)

example : extract_code ("A<python>x</python>").toList =
    (some (("n>x").toList), ("A").toList) := by decide

example : extract_code ("hello").toList = (none, ("hello").toList) := by decide

/-- If `sub` does not occur in `s`, `pyFind` reports no occurrence. -/
theorem pyFind_eq_none_of_hasSub_false (s sub : Str) (h : hasSub s sub = false) :
    pyFind s sub = none := by
  induction s with
  | nil =>
      simp only [hasSub] at h
      simp [pyFind, h]
  | cons c rest ih =>
      simp only [hasSub, Bool.or_eq_false_iff] at h
      simp [pyFind, h.1, ih h.2]

/-- `hasSub s sub = true` exactly when `s` decomposes around an occurrence
of `sub`. -/
theorem hasSub_iff_exists (s sub : Str) :
    hasSub s sub = true ↔ ∃ p q, s = p ++ sub ++ q := by
  induction s with
  | nil =>
      simp only [hasSub, List.isEmpty_iff]
      constructor
      · intro h
        exact ⟨[], [], by simp [h]⟩
      · rintro ⟨p, q, hpq⟩
        exact (List.append_eq_nil.mp (List.append_eq_nil.mp hpq.symm).1).2
  | cons c rest ih =>
      simp only [hasSub, Bool.or_eq_true]
      constructor
      · rintro (h | h)
        · rcases List.isPrefixOf_iff_prefix.mp h with ⟨t, ht⟩
          exact ⟨[], t, by simp [ht.symm]⟩
        · rcases ih.mp h with ⟨p, q, hpq⟩
          exact ⟨c :: p, q, by simp [hpq]⟩
      · rintro ⟨p, q, hpq⟩
        cases p with
        | nil =>
            left
            exact List.isPrefixOf_iff_prefix.mpr ⟨q, by simpa using hpq.symm⟩
        | cons d p' =>
            right
            refine ih.mpr ⟨p', q, ?_⟩
            simpa using (List.cons_eq_cons.mp (by simpa using hpq)).2

/-- Shared helper: when either delimiter is absent, `extract_code` yields
no code and the stripped response as narrative. -/
theorem extract_code_eq_of_absent (r : Str)
    (h : hasSub r startTag = false ∨ hasSub r endTag = false) :
    extract_code r = (none, pyStrip r) := by
  rcases h with h | h
  · unfold extract_code
    rw [pyFind_eq_none_of_hasSub_false r startTag h]
  · unfold extract_code
    rw [pyFind_eq_none_of_hasSub_false r endTag h]
    cases pyFind r startTag <;> rfl

/-! ## Planner stage: `generate_prompt_for_lite` -/

/-- A Python value, enough to model `question` being a string or not. -/
inductive PyVal
  | pyStr (s : Str)
  | pyNone
  | pyInt (n : Int)
deriving DecidableEq

/-- Python truthiness (`not question` is `!pyTruthy question`). -/
def pyTruthy : PyVal → Bool
  | .pyStr s => !s.isEmpty
  | .pyNone => false
  | .pyInt n => n != 0

/-- Python `isinstance(v, str)`. -/
def isinstance_str : PyVal → Bool
  | .pyStr _ => true
  | _ => false

/-- The underlying characters of a string value (only used after an
`isinstance_str` check has passed). -/
def pyStrVal : PyVal → Str
  | .pyStr s => s
  | _ => []

/-- ASCII apostrophe, spliced into templates literally. -/
def apos : Char := Char.ofNat 39

/-- The message of the `ValueError` raised by `generate_prompt_for_lite`. -/
def valueErrorMsg : Str := "Question must be a non-empty string".toList

/-- The text part of the planner request, the f-string of
`generate_prompt_for_lite` with `{question}` substituted. -/
def plannerRequestText (question : Str) : Str :=
  "Based on the following question,\n                            please generate a specific prompt for an LLM agent to extract relevant information from an earning".toList
  ++ (apos :: "s report PDF.\n                            Each sub-agent only has access to a single quarter".toList)
  ++ (apos :: "s earnings report.\n                            Output only the prompt and nothing else.\n                            \n\nQuestion: ".toList)
  ++ question

/-- Embedding of `generate_prompt_for_lite`. The `oracle` models
`client.invoke_model` plus response parsing: it receives the request text
and either returns the model's content text or raises. The result pairs
the Python outcome (a raised `ValueError` carrying its message, or the
`Optional[str]` return value — `none` when the `try` block caught an
exception) with the number of network calls issued. -/
def generate_prompt_for_lite (oracle : Str → Except Unit Str) (question : PyVal) :
    Except Str (Option Str) × Nat :=
  if !pyTruthy question || !isinstance_str question then
    (.error valueErrorMsg, 0)
  else
    match oracle (plannerRequestText (pyStrVal question)) with
    | .ok contentText => (.ok (some contentText), 1)
    | .error _ => (.ok none, 1)

/-! ## Worker fan-in: quarter labels and the combined context -/

/-- Python `os.path.basename` (POSIX): the part after the last `/`. -/
def basename (p : Str) : Str := (List.splitOn '/' p).getLastD []

/-- The label computed by the aggregation loop:
`os.path.basename(pdf_path).split("-")[1]`. `none` models the
`IndexError` raised when the filename has no `-`. -/
def quarterToken (pdf_path : Str) : Option Str :=
  (List.splitOn '-' (basename pdf_path))[1]?

/-- One iteration of the aggregation loop:
`f"<info quarter=\"{quarter}\">{info}</info>\n"`. -/
def infoBlockStr (quarter info : Str) : Str :=
  "<info quarter=\"".toList ++ quarter ++ "\">".toList ++ info ++ "</info>\n".toList

/-- Embedding of the fan-in loop over `extracted_info_list`: entries are
`(info, pdf_path)` pairs in list order, and the blocks are concatenated in
that order. `none` models an `IndexError` from the label lookup. -/
def combineExtractedInfo : List (Str × Str) → Option Str
  | [] => some []
  | (info, pdf_path) :: rest => do
    let quarter ← quarterToken pdf_path
    let tail ← combineExtractedInfo rest
    pure (infoBlockStr quarter info ++ tail)

/-! ## Configured inputs (Step 2) and the download path (Step 3) -/

/-- The four configured 2023 earnings-release URLs, in input order. -/
def pdf_urls : List Str :=
  [ "https://s2.q4cdn.com/299287126/files/doc_financials/2023/q1/Q1-2023-Amazon-Earnings-Release.pdf".toList,
    "https://s2.q4cdn.com/299287126/files/doc_financials/2023/q2/Q2-2023-Amazon-Earnings-Release.pdf".toList,
    "https://s2.q4cdn.com/299287126/files/doc_financials/2023/q3/AMZN-Q3-2023-Earnings-Release.pdf".toList,
    "https://s2.q4cdn.com/299287126/files/doc_financials/2023/q4/AMZN-Q4-2023-Earnings-Release.pdf".toList ]

/-- The destination folder for downloads. -/
def downloadFolder : Str := "../downloads/pdfs".toList

/-- `url.split("/")[-1]`: the name the downloaded file is saved under. -/
def downloadFileName (url : Str) : Str := (List.splitOn '/' url).getLastD []

/-- `os.path.join(folder, url.split("/")[-1])`, the `pdf_path` that
`download_pdf` returns (the folder has no trailing slash). -/
def downloadPath (url : Str) : Str :=
  downloadFolder ++ ('/' :: downloadFileName url)

example : quarterToken (downloadPath (pdf_urls.getD 0 [])) = some ("2023").toList := by
  decide

example : pdf_urls.map (fun u => quarterToken (downloadPath u)) =
    [some ("2023").toList, some ("2023").toList,
     some ("Q3").toList, some ("Q4").toList] := by decide

/-! ## Fetch and rasterize stage (Step 3)

`download_pdf` catches `requests.RequestException` and returns `None`, so a
download oracle is `Str → Option Str` (url to saved path). `fitz` raises on
an unreadable document and `pdf_to_base64_pngs` has no handler, so a
rasterizer oracle is `Str → Except Unit (List Str)` (path to base64 PNGs,
page order). -/

/-- Embedding of `process_pdf`: a failed download yields `None`; a
rasterizer exception propagates. -/
def process_pdf (dl : Str → Option Str) (ras : Str → Except Unit (List Str))
    (url : Str) : Except Unit (Option (Str × List Str)) :=
  match dl url with
  | some pdf_path =>
      match ras pdf_path with
      | .ok pngs => .ok (some (pdf_path, pngs))
      | .error e => .error e
  | none => .ok none

/-- Semantics of `list(executor.map(f, xs))`: results are consumed in input
order and the first (in input order) task exception re-raises, discarding
the remaining results. -/
def collectResults (f : α → Except Unit β) : List α → Except Unit (List β)
  | [] => .ok []
  | x :: xs =>
      match f x with
      | .error e => .error e
      | .ok y =>
          match collectResults f xs with
          | .error e => .error e
          | .ok ys => .ok (y :: ys)

/-- Embedding of the Step 3 driver: map `process_pdf` over the urls, then
`pdf_results = [r for r in pdf_results if r is not None]`. -/
def pdfResults (dl : Str → Option Str) (ras : Str → Except Unit (List Str))
    (urls : List Str) : Except Unit (List (Str × List Str)) :=
  (collectResults (process_pdf dl ras) urls).map (fun rs => rs.filterMap id)

/-- The entry a url contributes to the filtered `pdf_results` when no
exception aborts the stage. -/
def fetchResult (dl : Str → Option Str) (ras : Str → Except Unit (List Str))
    (url : Str) : Option (Str × List Str) :=
  match dl url with
  | some pdf_path =>
      match ras pdf_path with
      | .ok pngs => some (pdf_path, pngs)
      | .error _ => none
  | none => none

/-! ## Worker stage (Step 5): `extract_info` -/

/-- One element of a request's `content` list: an image part with inline
bytes, or a text part. -/
inductive ContentPart
  | image (bytes : Str)
  | text (t : Str)
deriving DecidableEq

/-- The `content` list built by `extract_info`: one image part per page
in page order, then the shared prompt as the final text part. -/
def extract_info_content (base64_encoded_pngs : List Str) (lite_prompt : Str) :
    List ContentPart :=
  base64_encoded_pngs.map ContentPart.image ++ [ContentPart.text lite_prompt]

/-- Embedding of `extract_info`: issue the request and pair the response
text with the document's `pdf_path`. The `worker` oracle models
`client.invoke_model` plus response parsing and may raise. -/
def extract_info (worker : List ContentPart → Except Unit Str)
    (pdf_path : Str) (base64_encoded_pngs : List Str) (lite_prompt : Str) :
    Except Unit (Str × Str) :=
  (worker (extract_info_content base64_encoded_pngs lite_prompt)).map
    (fun t => (t, pdf_path))

/-- The requests the fan-out issues, one per element of `pdf_results`, in
input order. -/
def workerRequests (pdf_results : List (Str × List Str)) (lite_prompt : Str) :
    List (List ContentPart) :=
  pdf_results.map (fun x => extract_info_content x.2 lite_prompt)

/-- `extracted_info_list = list(executor.map(lambda x: extract_info(x[0], x[1],
lite_prompt), pdf_results))`. -/
def extractedInfoList (worker : List ContentPart → Except Unit Str)
    (pdf_results : List (Str × List Str)) (lite_prompt : Str) :
    Except Unit (List (Str × Str)) :=
  collectResults (fun x => extract_info worker x.1 x.2 lite_prompt) pdf_results

/-- The worker stage followed by the fan-in loop: no combined context
exists unless every worker call returned. -/
def workerStageCombined (worker : List ContentPart → Except Unit Str)
    (pdf_results : List (Str × List Str)) (lite_prompt : Str) :
    Except Unit (Option Str) :=
  (extractedInfoList worker pdf_results lite_prompt).map combineExtractedInfo

/-- The image parts of a content list, in order. -/
def imagesOf (content : List ContentPart) : List Str :=
  content.filterMap (fun p => match p with | .image b => some b | .text _ => none)

/-- The text parts of a content list, in order. -/
def textsOf (content : List ContentPart) : List Str :=
  content.filterMap (fun p => match p with | .text t => some t | .image _ => none)

/-! ## Completion-order model for the fan-out

A schedule lists task indices in the order their threads complete. The
completion log records `(index, result)` pairs in completion order;
`executor.map` then yields results by input index, not completion order. -/

/-- The `(index, worker result)` pairs in completion order, for a pure
per-index result function `f`. -/
def completionLog (f : Nat → Str × Str) (sched : List Nat) :
    List (Nat × (Str × Str)) :=
  sched.map (fun i => (i, f i))

/-- The result recorded for input index `i`, if task `i` completed. -/
def lookupIdx (log : List (Nat × α)) (i : Nat) : Option α :=
  (log.find? (fun p => p.1 == i)).map Prod.snd

/-- Gather completed results by input index, failing if any listed index
never completed. -/
def gatherList (log : List (Nat × α)) : List Nat → Option (List α)
  | [] => some []
  | i :: is =>
      match lookupIdx log i with
      | some v => (gatherList log is).map (fun vs => v :: vs)
      | none => none

/-- The combined context produced from a completion schedule: gather the
`n` results in input order, then run the fan-in loop. -/
def combinedContextOf (f : Nat → Str × Str) (sched : List Nat) (n : Nat) :
    Option Str :=
  (gatherList (completionLog f sched) (List.range n)).bind combineExtractedInfo

/-! ## Helper lemmas -/

/-- If any task in the map raises, the whole `list(executor.map(...))`
raises. -/
theorem collectResults_error_of_mem (f : α → Except Unit β) (l : List α) (x : α)
    (hx : x ∈ l) (hf : f x = .error ()) : collectResults f l = .error () := by
  induction l with
  | nil => cases hx
  | cons y ys ih =>
      rcases List.mem_cons.mp hx with rfl | hx
      · simp [collectResults, hf]
      · cases hy : f y with
        | error e => simp [collectResults, hy]
        | ok v => simp [collectResults, hy, ih hx]

/-- If every task returns, `list(executor.map(...))` returns the mapped
results in input order. -/
theorem collectResults_ok_of_forall (f : α → Except Unit β) (g : α → β)
    (l : List α) (h : ∀ x ∈ l, f x = .ok (g x)) :
    collectResults f l = .ok (l.map g) := by
  induction l with
  | nil => rfl
  | cons y ys ih =>
      have hy := h y (List.mem_cons_self y ys)
      have hys := ih (fun x hx => h x (List.mem_cons_of_mem y hx))
      simp [collectResults, hy, hys]

/-- Filtering `None` out of a mapped list is a `filterMap`. -/
theorem filterMap_id_map (g : α → Option β) (l : List α) :
    (l.map g).filterMap id = l.filterMap g := by
  induction l with
  | nil => rfl
  | cons y ys ih => cases hy : g y <;> simp [List.filterMap_cons, hy, ih]

/-- When every document a successful download produced rasterizes
successfully, `process_pdf` returns exactly that url's `fetchResult`. -/
theorem process_pdf_eq_fetchResult (dl : Str → Option Str)
    (ras : Str → Except Unit (List Str)) (url : Str)
    (h : ∀ p, dl url = some p → ∃ pngs, ras p = .ok pngs) :
    process_pdf dl ras url = .ok (fetchResult dl ras url) := by
  cases hdl : dl url with
  | none => simp [process_pdf, fetchResult, hdl]
  | some p =>
      rcases h p hdl with ⟨pngs, hras⟩
      simp [process_pdf, fetchResult, hdl, hras]

/-- The image parts of a worker request are exactly the document's pages,
in page order. -/
theorem imagesOf_extract_info_content (pngs : List Str) (prompt : Str) :
    imagesOf (extract_info_content pngs prompt) = pngs := by
  induction pngs with
  | nil => rfl
  | cons a l ih =>
      simpa [extract_info_content, imagesOf, List.filterMap_cons] using ih

/-- The only text part of a worker request is the shared prompt. -/
theorem textsOf_extract_info_content (pngs : List Str) (prompt : Str) :
    textsOf (extract_info_content pngs prompt) = [prompt] := by
  induction pngs with
  | nil => rfl
  | cons a l ih =>
      simp only [extract_info_content, List.map_cons, List.cons_append,
        textsOf, List.filterMap_cons] at ih ⊢
      exact ih

/-- Any completion schedule that ran task `i` records result `f i` for
input index `i`. -/
theorem lookupIdx_completionLog (f : Nat → Str × Str) (sched : List Nat)
    (i : Nat) (hi : i ∈ sched) :
    lookupIdx (completionLog f sched) i = some (f i) := by
  induction sched with
  | nil => cases hi
  | cons j rest ih =>
      by_cases hj : j = i
      · subst hj
        simp [completionLog, lookupIdx, List.find?]
      · rcases List.mem_cons.mp hi with rfl | hi
        · exact absurd rfl hj
        · have h1 : lookupIdx (completionLog f (j :: rest)) i
              = lookupIdx (completionLog f rest) i := by
            unfold lookupIdx completionLog
            rw [List.map_cons, List.find?_cons_of_neg]
            simpa using hj
          rw [h1]
          exact ih hi

/-- Gathering indices that all completed yields their results in
input-index order, independent of the completion order. -/
theorem gatherList_completionLog (f : Nat → Str × Str) (sched : List Nat)
    (is : List Nat) (h : ∀ i ∈ is, i ∈ sched) :
    gatherList (completionLog f sched) is = some (is.map f) := by
  induction is with
  | nil => rfl
  | cons i rest ih =>
      have hlook := lookupIdx_completionLog f sched i (h i (List.mem_cons_self i rest))
      have hrest := ih (fun j hj => h j (List.mem_cons_of_mem i hj))
      simp [gatherList, hlook, hrest]

/-- Under a complete schedule the combined context is the input-order
fan-in of the per-index results. -/
theorem combinedContextOf_eq (f : Nat → Str × Str) (sched : List Nat) (n : Nat)
    (h : ∀ i, i < n → i ∈ sched) :
    combinedContextOf f sched n = combineExtractedInfo ((List.range n).map f) := by
  have hmem : ∀ i ∈ List.range n, i ∈ sched := by
    intro i hi
    exact h i (List.mem_range.mp hi)
  simp [combinedContextOf, gatherList_completionLog f sched (List.range n) hmem]

/-! ## Claim theorems -/

/-- Claim C1 (code-bug evidence): on the well-formed response
`"A<python>x</python>"` enclosing the fragment `F = "x"`, `extract_code`
returns the code `"n>x"`, not `F` modulo whitespace: the slice begins at
`start+6`, two characters before the end of the 8-character start
delimiter, so the tail `"n>"` of the delimiter is kept. The narrative
part is the trimmed prefix, as claimed. -/
theorem extract_code_keeps_delimiter_tail :
    extract_code (("A<python>x</python>").toList)
      = (some (("n>x").toList), ("A").toList) ∧
    some (("n>x").toList) ≠ some (("x").toList) := by decide

/-- Claim C7: if the start delimiter or the end delimiter is absent from
the synthesis response, `extract_code` produces no code fragment and the
narrative is the whole stripped response. -/
theorem missing_delimiter_yields_narrative_only (r : Str)
    (h : hasSub r startTag = false ∨ hasSub r endTag = false) :
    extract_code r = (none, pyStrip r) :=
  extract_code_eq_of_absent r h

/-- Witness for C7 at the delimiter-free response `"hello"`. -/
theorem missing_delimiter_yields_narrative_only_witness :
    hasSub (("hello").toList) startTag = false ∧
    extract_code (("hello").toList) = (none, pyStrip (("hello").toList)) :=
  ⟨by decide,
   missing_delimiter_yields_narrative_only (("hello").toList) (Or.inl (by decide))⟩

/-- Claim C2: a response that encloses its fragment in the instructed
`<python_code>`/`</python_code>` tags and contains no literal `<python>`
or `</python>` substring yields no code fragment from `extract_code`; the
entire response is treated as narrative. -/
theorem python_code_tags_never_recognized (pre frag post : Str)
    (h1 : hasSub (pre ++ pcStartTag ++ frag ++ pcEndTag ++ post) startTag = false)
    (_h2 : hasSub (pre ++ pcStartTag ++ frag ++ pcEndTag ++ post) endTag = false) :
    extract_code (pre ++ pcStartTag ++ frag ++ pcEndTag ++ post)
      = (none, pyStrip (pre ++ pcStartTag ++ frag ++ pcEndTag ++ post)) :=
  extract_code_eq_of_absent _ (Or.inl h1)

/-- Witness for C2 at a response following the synthesis instruction. -/
theorem python_code_tags_never_recognized_witness :
    hasSub (("The chart:").toList ++ pcStartTag ++ ("plt.plot(x)").toList
        ++ pcEndTag ++ []) startTag = false ∧
    hasSub (("The chart:").toList ++ pcStartTag ++ ("plt.plot(x)").toList
        ++ pcEndTag ++ []) endTag = false ∧
    extract_code (("The chart:").toList ++ pcStartTag ++ ("plt.plot(x)").toList
        ++ pcEndTag ++ [])
      = (none, pyStrip (("The chart:").toList ++ pcStartTag
          ++ ("plt.plot(x)").toList ++ pcEndTag ++ [])) :=
  ⟨by decide, by decide,
   python_code_tags_never_recognized (("The chart:").toList)
     (("plt.plot(x)").toList) [] (by decide) (by decide)⟩

/-- Claim C6: for an empty-string or non-string question,
`generate_prompt_for_lite` raises `ValueError` and issues zero model
calls, whatever the endpoint oracle would answer. -/
theorem empty_or_nonstring_question_fails_fast
    (oracle : Str → Except Unit Str) (question : PyVal)
    (h : question = .pyStr [] ∨ isinstance_str question = false) :
    generate_prompt_for_lite oracle question = (.error valueErrorMsg, 0) := by
  rcases h with rfl | h
  · rfl
  · unfold generate_prompt_for_lite
    rw [h]
    simp

/-- Witness for C6 at the empty question and a failing oracle. -/
theorem empty_or_nonstring_question_fails_fast_witness :
    generate_prompt_for_lite (fun _ => .error ()) (PyVal.pyStr [])
      = (.error valueErrorMsg, 0) :=
  empty_or_nonstring_question_fails_fast _ _ (Or.inl rfl)

/-- Claim C4 (code-bug evidence): for the four configured 2023 URLs, the
labels the aggregation loop actually produces are `2023`, `2023`, `Q3`,
`Q4` — token `[1]` of each downloaded filename — so the combined context
wraps the four extractions in those labels in input order; the labels are
not the quarter identifiers `Q1`, `Q2`, `Q3`, `Q4` claimed. -/
theorem configured_quarter_labels :
    pdf_urls.map (fun u => quarterToken (downloadPath u))
      = [some (("2023").toList), some (("2023").toList),
         some (("Q3").toList), some (("Q4").toList)] ∧
    combineExtractedInfo
        (List.zip [("a").toList, ("b").toList, ("c").toList, ("d").toList]
          (pdf_urls.map downloadPath))
      = some (infoBlockStr (("2023").toList) (("a").toList)
          ++ infoBlockStr (("2023").toList) (("b").toList)
          ++ infoBlockStr (("Q3").toList) (("c").toList)
          ++ infoBlockStr (("Q4").toList) (("d").toList)) ∧
    ¬ pdf_urls.map (fun u => quarterToken (downloadPath u))
        = [some (("Q1").toList), some (("Q2").toList),
           some (("Q3").toList), some (("Q4").toList)] := by decide

/-- Claim C3: the combined context is determined solely by input order —
any two completion schedules that each ran all `n` worker tasks produce
the identical combined context string. -/
theorem combined_context_completion_order_independent
    (f : Nat → Str × Str) (n : Nat) (s1 s2 : List Nat)
    (h1 : ∀ i, i < n → i ∈ s1) (h2 : ∀ i, i < n → i ∈ s2) :
    combinedContextOf f s1 n = combinedContextOf f s2 n := by
  rw [combinedContextOf_eq f s1 n h1, combinedContextOf_eq f s2 n h2]

/-- Witness for C3: two tasks completing in opposite orders. -/
theorem combined_context_completion_order_independent_witness :
    combinedContextOf (fun _ => (("a").toList, ("x-y").toList)) [1, 0] 2
      = combinedContextOf (fun _ => (("a").toList, ("x-y").toList)) [0, 1] 2 :=
  combined_context_completion_order_independent _ 2 [1, 0] [0, 1]
    (by decide) (by decide)

/-- Claim C5 counterexample: both downloads succeed, rasterization of the
first document raises, and the entire Step 3 stage raises — the second
document does not proceed to the worker stage, contradicting the claim
that the error is fatal for the failing document only. -/
theorem raster_failure_not_isolated_cex :
    pdfResults (fun u => some u)
        (fun p => if p = ("bad.pdf").toList then .error () else .ok [p])
        [("bad.pdf").toList, ("good.pdf").toList]
      = .error () ∧
    (Except.error () : Except Unit (List (Str × List Str)))
      ≠ .ok [(("good.pdf").toList, [("good.pdf").toList])] :=
  ⟨rfl, by simp⟩

/-- Claim C5 amended: a rasterization failure is not isolated to its
document — if any url downloads to a path whose rasterization raises, the
whole Step 3 stage raises and no `pdf_results` list is produced at all,
so no document reaches the worker stage. -/
theorem raster_failure_aborts_whole_stage
    (dl : Str → Option Str) (ras : Str → Except Unit (List Str))
    (urls : List Str)
    (h : ∃ u ∈ urls, ∃ p, dl u = some p ∧ ras p = .error ()) :
    pdfResults dl ras urls = .error () := by
  rcases h with ⟨u, hu, p, hdl, hras⟩
  have hproc : process_pdf dl ras u = .error () := by
    simp [process_pdf, hdl, hras]
  have hcoll := collectResults_error_of_mem (process_pdf dl ras) urls u hu hproc
  unfold pdfResults
  rw [hcoll]
  rfl

/-- Witness for the amended C5. -/
theorem raster_failure_aborts_whole_stage_witness :
    pdfResults (fun u => some u) (fun _ => .error ()) [("a.pdf").toList]
      = .error () :=
  raster_failure_aborts_whole_stage _ _ _
    ⟨("a.pdf").toList, by decide, ("a.pdf").toList, rfl, rfl⟩

/-- Claim C9: download failures are isolated per url — when every
successfully downloaded document rasterizes, the stage returns and its
result is, in input order, exactly the entries of the successfully
fetched documents; a url whose download returned `None` contributes
nothing (its `fetchResult` is `none` and `filterMap` drops it). -/
theorem download_failures_are_isolated
    (dl : Str → Option Str) (ras : Str → Except Unit (List Str))
    (urls : List Str)
    (h : ∀ u ∈ urls, ∀ p, dl u = some p → ∃ pngs, ras p = .ok pngs) :
    pdfResults dl ras urls = .ok (urls.filterMap (fetchResult dl ras)) := by
  have hcoll := collectResults_ok_of_forall (process_pdf dl ras)
    (fetchResult dl ras) urls
    (fun u hu => process_pdf_eq_fetchResult dl ras u (h u hu))
  unfold pdfResults
  rw [hcoll]
  show Except.ok ((urls.map (fetchResult dl ras)).filterMap id)
      = Except.ok (urls.filterMap (fetchResult dl ras))
  rw [filterMap_id_map]

/-- Witness for C9: one failed and one successful download; the stage
returns only the successful document's entry. -/
theorem download_failures_are_isolated_witness :
    pdfResults (fun u => if u = ("bad").toList then none else some u)
        (fun p => .ok [p]) [("bad").toList, ("good").toList]
      = .ok ([("bad").toList, ("good").toList].filterMap
          (fetchResult (fun u => if u = ("bad").toList then none else some u)
            (fun p => .ok [p]))) ∧
    [("bad").toList, ("good").toList].filterMap
        (fetchResult (fun u => if u = ("bad").toList then none else some u)
          (fun p => .ok [p]))
      = [(("good").toList, [("good").toList])] :=
  ⟨download_failures_are_isolated _ _ _ (fun u _ p _ => ⟨[p], rfl⟩), by decide⟩

/-- Claim C8: for every fan-out set, exactly one worker request is issued
per document, in input order, and the i-th request consists of document
i's page images in page order plus the shared prompt as its only text
part — no page image from any other document. -/
theorem worker_requests_bundle_only_own_pages
    (pdf_results : List (Str × List Str)) (lite_prompt : Str) :
    (workerRequests pdf_results lite_prompt).length = pdf_results.length ∧
    ∀ i (h : i < pdf_results.length),
      (workerRequests pdf_results lite_prompt)[i]?
        = some (extract_info_content (pdf_results[i]).2 lite_prompt) ∧
      imagesOf (extract_info_content (pdf_results[i]).2 lite_prompt)
        = (pdf_results[i]).2 ∧
      textsOf (extract_info_content (pdf_results[i]).2 lite_prompt)
        = [lite_prompt] := by
  refine ⟨by simp [workerRequests], fun i h =>
    ⟨?_, imagesOf_extract_info_content _ _, textsOf_extract_info_content _ _⟩⟩
  simp [workerRequests, List.getElem?_map, List.getElem?_eq_getElem h]

/-- Witness for C8 at a one-document fan-out set. -/
theorem worker_requests_bundle_only_own_pages_witness :
    (workerRequests [(("p1").toList, [("g1").toList, ("g2").toList])]
        (("go").toList)).length = 1 ∧
    ((workerRequests [(("p1").toList, [("g1").toList, ("g2").toList])]
        (("go").toList))[0]?
      = some (extract_info_content [("g1").toList, ("g2").toList]
          (("go").toList)) ∧
    imagesOf (extract_info_content [("g1").toList, ("g2").toList]
        (("go").toList)) = [("g1").toList, ("g2").toList] ∧
    textsOf (extract_info_content [("g1").toList, ("g2").toList]
        (("go").toList)) = [("go").toList]) :=
  ⟨(worker_requests_bundle_only_own_pages
      [(("p1").toList, [("g1").toList, ("g2").toList])] (("go").toList)).1,
   (worker_requests_bundle_only_own_pages
      [(("p1").toList, [("g1").toList, ("g2").toList])] (("go").toList)).2
      0 (by decide)⟩

/-- Claim C10: there is no per-document error isolation at the worker
stage — if any document's worker call raises, the whole fan-out raises
and no combined context is produced. -/
theorem worker_exception_aborts_aggregation
    (worker : List ContentPart → Except Unit Str)
    (pdf_results : List (Str × List Str)) (lite_prompt : Str)
    (h : ∃ x ∈ pdf_results,
        worker (extract_info_content x.2 lite_prompt) = .error ()) :
    extractedInfoList worker pdf_results lite_prompt = .error () ∧
    workerStageCombined worker pdf_results lite_prompt = .error () := by
  rcases h with ⟨x, hx, hw⟩
  have hcall : extract_info worker x.1 x.2 lite_prompt = .error () := by
    unfold extract_info
    rw [hw]
    rfl
  have hlist : extractedInfoList worker pdf_results lite_prompt = .error () := by
    unfold extractedInfoList
    exact collectResults_error_of_mem _ pdf_results x hx hcall
  refine ⟨hlist, ?_⟩
  unfold workerStageCombined
  rw [hlist]
  rfl

/-- Witness for C10: a single document whose worker call raises. -/
theorem worker_exception_aborts_aggregation_witness :
    extractedInfoList (fun _ => .error ()) [(("p").toList, [])] [] = .error () ∧
    workerStageCombined (fun _ => .error ()) [(("p").toList, [])] [] = .error () :=
  worker_exception_aborts_aggregation _ _ _ ⟨((("p").toList, [])), by decide, rfl⟩

end NovaPipeline
